import Mathlib

/-!
Shallow embedding of `src/O365/connection.py` (the `python-o365` repository).

The module is a thin authentication / HTTP-request wrapper:
* `MicroDict` — a `dict` subclass whose `__getitem__` probes the key with its
  first character forced to lowercase, then to uppercase;
* free functions `save_token` / `load_token` / `delete_token` persisting an
  OAuth token as a JSON file;
* class `Connection` (a process-wide singleton) with static constructors
  `login`, `oauth2`, `proxy` and one request helper `get_response`.

Python values (including `None`) are modelled by the inductive `PyVal`;
Python dicts by insertion-ordered association lists with unique keys, as
produced by `dictSet` / `dictUpdate`.  The file system is an association
list from paths to the JSON value stored in the file (Python's `json.dump`
followed by `json.load` round-trips every JSON-serialisable value, so the
serialised text itself is abstracted away).  Network transport and the
interactive authorization step are oracles passed in explicitly; the
observable interaction of `get_response` with the outside world is returned
as a trace of `Event`s.
-/

namespace O365

/-- A Python/JSON value.  Python `None` is `PyVal.none`; a Python tuple
(only the basic-auth `(username, password)` pair occurs) is modelled as a
`PyVal.list` of strings. -/
inductive PyVal where
  | none : PyVal
  | bool (b : Bool) : PyVal
  | num (n : Int) : PyVal
  | str (s : String) : PyVal
  | list (xs : List PyVal) : PyVal
  | dict (entries : List (String × PyVal)) : PyVal

/-- Python `is None` (identity test against the `None` singleton). -/
def PyVal.isNone : PyVal → Bool
  | .none => true
  | _ => false

/-- Python truthiness (`if not token:`): `None`, `False`, `0`, `""`, `[]`
and `{}` are falsy. -/
def pyTruthy : PyVal → Bool
  | .none => false
  | .bool b => b
  | .num n => n != 0
  | .str s => s != ""
  | .list xs => !xs.isEmpty
  | .dict m => !m.isEmpty

/-- Association-list model of a Python dict: first binding of a key. -/
def dictFind (d : List (String × PyVal)) (k : String) : Option PyVal :=
  match d with
  | [] => Option.none
  | (k0, v) :: rest => if k0 = k then some v else dictFind rest k

/-- Python `d.get(k, None)`: stored value, or `None` when the key is absent. -/
def dictGetD (d : List (String × PyVal)) (k : String) : PyVal :=
  match dictFind d k with
  | some v => v
  | Option.none => PyVal.none

/-- Python `d[k] = v`: replace the binding in place, else append. -/
def dictSet (d : List (String × PyVal)) (k : String) (v : PyVal) :
    List (String × PyVal) :=
  match d with
  | [] => [(k, v)]
  | (k0, v0) :: rest =>
      if k0 = k then (k0, v) :: rest else (k0, v0) :: dictSet rest k v

/-- Python `d.update(kwargs)`: set every binding of `kwargs` in `d`. -/
def dictUpdate (d kwargs : List (String × PyVal)) : List (String × PyVal) :=
  kwargs.foldl (fun acc p => dictSet acc p.1 p.2) d

/-- `key[:1].lower() + key[1:]`: first character forced to lowercase
(`Char.toLower` models `str.lower` on a single character). -/
def lowerFirst (s : String) : String :=
  match s.data with
  | [] => ""
  | c :: cs => String.mk (c.toLower :: cs)

/-- `key[:1].upper() + key[1:]`: first character forced to uppercase. -/
def upperFirst (s : String) : String :=
  match s.data with
  | [] => ""
  | c :: cs => String.mk (c.toUpper :: cs)

/-- `class MicroDict(dict)`: a read-only view of one JSON object. -/
structure MicroDict where
  entries : List (String × PyVal)

/-- `MicroDict.__getitem__`:
`result = super().get(key[:1].lower() + key[1:], None)`;
`if result is None: result = super().get(key[:1].upper() + key[1:])`;
`return result`.  Total: it never raises `KeyError`. -/
def MicroDict.getItem (d : MicroDict) (key : String) : PyVal :=
  let result := dictGetD d.entries (lowerFirst key)
  if result.isNone then dictGetD d.entries (upperFirst key) else result

/-! ### Token persistence

The file system is an association list from paths to the JSON value the
file holds (`json.dump` then `json.load` is the identity on
JSON-serialisable values, so serialisation is abstracted away). -/

/-- File system: path → stored JSON value. -/
abbrev FileSystem := List (String × PyVal)

def fsExists (fs : FileSystem) (p : String) : Bool :=
  (dictFind fs p).isSome

def fsWrite (fs : FileSystem) (p : String) (v : PyVal) : FileSystem :=
  dictSet fs p v

/-- `os.unlink`. -/
def fsUnlink (fs : FileSystem) (p : String) : FileSystem :=
  fs.filter (fun e => e.1 != p)

/-- `_home_path = path.expanduser("~")` (the user's home directory,
abstracted to a fixed string). -/
def _home_path : String := "~"

/-- `_default_token_file = '.o365_token'`. -/
def _default_token_file : String := ".o365_token"

/-- `default_token_path = path.join(_home_path, _default_token_file)`. -/
def default_token_path : String := _home_path ++ "/" ++ _default_token_file

/-- `if not token_path: token_path = default_token_path` — Python falsiness
of a string is emptiness, so `None` and `""` both select the default. -/
def resolveTokenPath (token_path : Option String) : String :=
  match token_path with
  | Option.none => default_token_path
  | some s => if s = "" then default_token_path else s

/-- `save_token(token, token_path=None)`: write the token as JSON at the
resolved path. -/
def save_token (token : PyVal) (token_path : Option String)
    (fs : FileSystem) : FileSystem :=
  fsWrite fs (resolveTokenPath token_path) token

/-- `load_token(token_path=None)`: `token = None`; if the file exists,
parse it; return `token`. -/
def load_token (token_path : Option String) (fs : FileSystem) : PyVal :=
  match dictFind fs (resolveTokenPath token_path) with
  | some v => v
  | Option.none => PyVal.none

/-- `delete_token(token_path=None)`: unlink the file if it exists. -/
def delete_token (token_path : Option String) (fs : FileSystem) : FileSystem :=
  let p := resolveTokenPath token_path
  if fsExists fs p then fsUnlink fs p else fs

/-! ### Connection state -/

/-- The `requests_oauthlib.OAuth2Session` object, reduced to the
configuration this module passes to it and the token it holds. -/
structure OAuth2Session where
  client_id : String
  redirect_uri : Option String
  scope : Option (List String)
  token : Option PyVal

/-- The mutable fields of the singleton `Connection` instance, as set in
`Connection.__init__`. -/
structure ConnState where
  api_version : Option String
  auth : Option (String × String)
  oauth : Option OAuth2Session
  client_id : Option String
  client_secret : Option String
  token : Option PyVal
  proxy_dict : Option (List (String × String))

/-- `Connection._oauth2_authorize_url`. -/
def _oauth2_authorize_url : String :=
  "https://login.microsoftonline.com/common/oauth2/v2.0/authorize"

/-- `Connection._oauth2_token_url`. -/
def _oauth2_token_url : String :=
  "https://login.microsoftonline.com/common/oauth2/v2.0/token"

/-- `Connection.__init__`: every field starts as `None`.  The `Singleton`
metaclass runs it once per process; each static constructor then mutates
this same instance, which the state-transformer signatures below model. -/
def ConnState.init : ConnState :=
  { api_version := Option.none, auth := Option.none, oauth := Option.none
    client_id := Option.none, client_secret := Option.none
    token := Option.none, proxy_dict := Option.none }

/-- `Connection.is_valid`: `if api_version == '1.0': valid = bool(auth)`,
`elif api_version == '2.0': valid = bool(oauth)`.  A `(username, password)`
tuple and a session object are always truthy, so truthiness is presence. -/
def ConnState.is_valid (c : ConnState) : Bool :=
  if c.api_version = some "1.0" then c.auth.isSome
  else if c.api_version = some "2.0" then c.oauth.isSome
  else false

/-- `Connection.login(username, password)` acting on the singleton state:
sets `api_version` and `auth`, leaves every other field alone. -/
def ConnState.login (c : ConnState) (username password : String) : ConnState :=
  { c with api_version := some "1.0", auth := some (username, password) }

/-- `Connection.proxy(url, port, username, password)`: sets `proxy_dict`
with embedded-credential URLs for both schemes; touches nothing else. -/
def ConnState.proxy (c : ConnState) (url : String) (port : Nat)
    (username password : String) : ConnState :=
  let pd : List (String × String) :=
    [("http", "http://" ++ username ++ ":" ++ password ++ "@" ++ url
        ++ ":" ++ toString port),
     ("https", "https://" ++ username ++ ":" ++ password ++ "@" ++ url
        ++ ":" ++ toString port)]
  { c with proxy_dict := some pd }

/-- The `redirect_uri` passed to `OAuth2Session` in `Connection.oauth2`. -/
def oauth2RedirectUri : String := "https://outlook.office365.com/owa/"

/-- The `scope` list passed to `OAuth2Session` in `Connection.oauth2`. -/
def oauth2Scopes : List String :=
  ["https://graph.microsoft.com/Mail.ReadWrite",
   "https://graph.microsoft.com/Mail.Send",
   "offline_access"]

/-- Observable side effects of `oauth2` and `get_response`. -/
inductive Event where
  | tokenDeleted (path : String)
  | authPrompt (authorize_url : String)
  | tokenSaved (path : String) (token : PyVal)
  | getCall (url : String) (params : List (String × PyVal))
  | refreshCall (token_url : String)
      (client_id client_secret : Option String)

/-- `Connection.oauth2(client_id, client_secret, store_token=True,
token_path=None)` acting on the singleton state and the file system.
`fetched_token` is the oracle for the interactive authorization exchange:
the value `oauth.fetch_token` returns after the user pastes the redirect
URL.  Returns the new connection state, the new file system and the trace
of side effects. -/
def ConnState.oauth2 (c : ConnState) (fs : FileSystem)
    (client_id client_secret : String) (store_token : Bool)
    (token_path : Option String) (fetched_token : PyVal) :
    ConnState × FileSystem × List Event :=
  let c := { c with api_version := some "2.0",
                    client_id := some client_id,
                    client_secret := some client_secret }
  let fs := if !store_token then delete_token token_path fs else fs
  let evs : List Event :=
    if !store_token then [Event.tokenDeleted (resolveTokenPath token_path)]
    else []
  let token := load_token token_path fs
  if !pyTruthy token then
    -- interactive branch: build a session, prompt, exchange the code,
    -- persist the fetched token
    let session : OAuth2Session :=
      { client_id := client_id, redirect_uri := some oauth2RedirectUri
        scope := some oauth2Scopes, token := some fetched_token }
    let fs := save_token fetched_token token_path fs
    ({ c with oauth := some session }, fs,
      evs ++ [Event.authPrompt _oauth2_authorize_url,
              Event.tokenSaved (resolveTokenPath token_path) fetched_token])
  else
    -- stored-token branch: session built directly from the stored token
    let session : OAuth2Session :=
      { client_id := client_id, redirect_uri := Option.none
        scope := Option.none, token := some token }
    ({ c with oauth := some session }, fs, evs)

/-! ### `get_response` -/

/-- Outcome of one underlying GET (`requests.get` or `OAuth2Session.get`):
a response whose `.json()` is a JSON object (the module's expected shape),
a raised `oauthlib.oauth2.TokenExpiredError`, or any other raised error. -/
inductive GetOutcome where
  | ok (body : List (String × PyVal))
  | tokenExpired
  | err (e : String)

/-- Outcome of `OAuth2Session.refresh_token`: the new token, or an error. -/
inductive RefreshOutcome where
  | ok (newToken : PyVal)
  | err (e : String)

/-- Transport oracle for one `get_response` call: the outcome of the first
GET, of a refresh were one attempted, and of a retried GET. -/
structure Transport where
  firstGet : GetOutcome
  refresh : RefreshOutcome
  secondGet : GetOutcome

/-- Errors `get_response` can raise. -/
inductive GetError where
  /-- `RuntimeError` raised when `is_valid()` is false. -/
  | notConfigured (msg : String)
  /-- `RuntimeError` raised when the decoded body has no `"value"` key;
  carries the body, which the message embeds after the fixed prefix
  `"Something went wrong, received an unexpected result \n"`. -/
  | unexpectedResult (body : PyVal)
  /-- An uncaught `TokenExpiredError`. -/
  | tokenExpired
  /-- Iterating or wrapping a non-object element of `"value"` (Python
  `TypeError`/`ValueError` from `MicroDict(x)`). -/
  | typeError
  /-- Any other transport error, propagated unmodified. -/
  | transport (e : String)
  /-- An error raised inside `oauth.refresh_token`, propagated. -/
  | refreshFailed (e : String)

/-- The `RuntimeError` message for an unconfigured connection. -/
def notConfiguredMsg : String :=
  "Connection is not configured, please use \"O365.Connection\" to set username and password or OAuth2 authentication"

/-- `[MicroDict(x) for x in response_json['value']]` over an array body:
left to right, the first non-object element raises. -/
def wrapList : List PyVal → Except GetError (List MicroDict)
  | [] => Except.ok []
  | x :: xs =>
      match x with
      | .dict m =>
          match wrapList xs with
          | .ok ds => Except.ok (MicroDict.mk m :: ds)
          | .error e => Except.error e
      | _ => Except.error GetError.typeError

/-- `[MicroDict(x) for x in response_json['value']]`: the `"value"` entry
must be an array of JSON objects; order is preserved. -/
def wrapValues : PyVal → Except GetError (List MicroDict)
  | .list xs => wrapList xs
  | _ => Except.error GetError.typeError

/-- The tail of `get_response` after a successful GET:
`response_json = response.json()`;
`if 'value' not in response_json: raise RuntimeError(...)`;
`return [MicroDict(x) for x in response_json['value']]`. -/
def processBody (m : List (String × PyVal)) : Except GetError (List MicroDict) :=
  match dictFind m "value" with
  | Option.none => Except.error (GetError.unexpectedResult (PyVal.dict m))
  | some v => wrapValues v

/-- `con_params = {}`; `if connection.proxy_dict:
con_params['proxies'] = connection.proxy_dict`; `con_params.update(kwargs)`. -/
def buildConParams (proxy_dict : Option (List (String × String)))
    (kwargs : List (String × PyVal)) : List (String × PyVal) :=
  let con_params : List (String × PyVal) :=
    match proxy_dict with
    | some pd => [("proxies", PyVal.dict (pd.map (fun e => (e.1, PyVal.str e.2))))]
    | Option.none => []
  dictUpdate con_params kwargs

/-- The basic-auth tuple as the Python value bound to `con_params['auth']`. -/
def authToPy : Option (String × String) → PyVal
  | some (u, p) => PyVal.list [PyVal.str u, PyVal.str p]
  | Option.none => PyVal.none

/-- `Connection.get_response(request_url, **kwargs)` acting on the singleton
state, the file system and the transport oracle.  Returns the raised error
or the list of wrapped values, the connection state after the call (the
session token changes when a refresh happened; nothing else is assigned),
the file system after the call, and the trace of network/file events. -/
def ConnState.get_response (c : ConnState) (fs : FileSystem)
    (request_url : String) (kwargs : List (String × PyVal)) (t : Transport) :
    Except GetError (List MicroDict) × ConnState × FileSystem × List Event :=
  if !c.is_valid then
    (Except.error (GetError.notConfigured notConfiguredMsg), c, fs, [])
  else
    let con_params := buildConParams c.proxy_dict kwargs
    if c.api_version = some "1.0" then
      -- con_params['auth'] = connection.auth; requests.get(request_url, **con_params)
      let ps := dictSet con_params "auth" (authToPy c.auth)
      let evs := [Event.getCall request_url ps]
      match t.firstGet with
      | .ok body => (processBody body, c, fs, evs)
      | .tokenExpired => (Except.error GetError.tokenExpired, c, fs, evs)
      | .err e => (Except.error (GetError.transport e), c, fs, evs)
    else
      -- try: response = connection.oauth.get(request_url, **con_params)
      match t.firstGet with
      | .ok body => (processBody body, c, fs, [Event.getCall request_url con_params])
      | .err e => (Except.error (GetError.transport e), c, fs,
                    [Event.getCall request_url con_params])
      | .tokenExpired =>
        -- except TokenExpiredError: refresh against the fixed token URL
        -- with the stored client_id / client_secret
        match t.refresh with
        | .err e =>
            (Except.error (GetError.refreshFailed e), c, fs,
              [Event.getCall request_url con_params,
               Event.refreshCall _oauth2_token_url c.client_id c.client_secret])
        | .ok tok =>
            -- save_token(token)  -- no path argument: the default path
            let oauthNew := c.oauth.map (fun s => { s with token := some tok })
            let c := { c with oauth := oauthNew }
            let fs := save_token tok Option.none fs
            let evs := [Event.getCall request_url con_params,
                        Event.refreshCall _oauth2_token_url c.client_id c.client_secret,
                        Event.tokenSaved default_token_path tok,
                        Event.getCall request_url con_params]
            -- response = connection.oauth.get(request_url, **con_params)
            match t.secondGet with
            | .ok body => (processBody body, c, fs, evs)
            | .tokenExpired => (Except.error GetError.tokenExpired, c, fs, evs)
            | .err e => (Except.error (GetError.transport e), c, fs, evs)

/-! ### Sequences of configuration calls (for the state invariant) -/

/-- One call to a static constructor of `Connection`. -/
inductive ConfigOp where
  | loginOp (username password : String)
  | oauth2Op (client_id client_secret : String) (store_token : Bool)
      (token_path : Option String) (fetched_token : PyVal)
  | proxyOp (url : String) (port : Nat) (username password : String)

/-- Apply one constructor call to the singleton state and file system. -/
def applyOp (s : ConnState × FileSystem) (op : ConfigOp) :
    ConnState × FileSystem :=
  match op with
  | .loginOp u p => (s.1.login u p, s.2)
  | .oauth2Op cid cs st tp tok =>
      let r := s.1.oauth2 s.2 cid cs st tp tok
      (r.1, r.2.1)
  | .proxyOp url port u p => (s.1.proxy url port u p, s.2)

/-- Run a sequence of constructor calls from a starting state. -/
def runOps (ops : List ConfigOp) (s : ConnState × FileSystem) :
    ConnState × FileSystem :=
  ops.foldl applyOp s

/-- `true` on the constructors that authenticate (`login`, `oauth2`). -/
def ConfigOp.isAuthOp : ConfigOp → Bool
  | .proxyOp _ _ _ _ => false
  | _ => true

/-- The options `get_response` hands to the underlying GET: the
proxy/kwargs merge, with `auth` forced to the stored credentials on the
`"1.0"` path. -/
def sentParams (c : ConnState) (kwargs : List (String × PyVal)) :
    List (String × PyVal) :=
  let con_params := buildConParams c.proxy_dict kwargs
  if c.api_version = some "1.0" then
    dictSet con_params "auth" (authToPy c.auth)
  else con_params

/-! ## Helper lemmas -/

theorem dictFind_dictSet (d : List (String × PyVal)) (k k' : String)
    (v : PyVal) :
    dictFind (dictSet d k v) k' = if k = k' then some v else dictFind d k' := by
  induction d with
  | nil =>
      by_cases h : k = k' <;> simp [dictSet, dictFind, h]
  | cons hd tl ih =>
      obtain ⟨k0, v0⟩ := hd
      by_cases h : k0 = k
      · subst h
        by_cases h2 : k0 = k' <;> simp [dictSet, dictFind, h2]
      · by_cases h2 : k0 = k'
        · subst h2
          have : ¬ k = k0 := fun hh => h hh.symm
          simp [dictSet, dictFind, h, this]
        · simp [dictSet, dictFind, h, h2, ih]

theorem dictUpdate_nil (base : List (String × PyVal)) :
    dictUpdate base [] = base := rfl

theorem dictUpdate_cons (base tl : List (String × PyVal)) (k0 : String)
    (v0 : PyVal) :
    dictUpdate base ((k0, v0) :: tl) = dictUpdate (dictSet base k0 v0) tl := rfl

theorem dictFind_eq_none_of_not_mem (d : List (String × PyVal)) (k : String)
    (h : k ∉ d.map Prod.fst) : dictFind d k = Option.none := by
  induction d with
  | nil => rfl
  | cons hd tl ih =>
      obtain ⟨k0, v0⟩ := hd
      simp only [List.map, List.mem_cons, not_or] at h
      have hk : ¬ k0 = k := fun hh => h.1 hh.symm
      simp only [dictFind, if_neg hk]
      exact ih h.2

theorem dictFind_dictUpdate_of_none (base kwargs : List (String × PyVal))
    (k : String) (h : dictFind kwargs k = Option.none) :
    dictFind (dictUpdate base kwargs) k = dictFind base k := by
  induction kwargs generalizing base with
  | nil => rfl
  | cons hd tl ih =>
      obtain ⟨k0, v0⟩ := hd
      simp only [dictFind] at h
      by_cases hk : k0 = k
      · simp [hk] at h
      · rw [dictUpdate_cons, ih _ (by simpa [hk] using h), dictFind_dictSet]
        simp [hk]

theorem dictFind_dictUpdate_of_some (base kwargs : List (String × PyVal))
    (k : String) (v : PyVal) (hnd : (kwargs.map Prod.fst).Nodup)
    (h : dictFind kwargs k = some v) :
    dictFind (dictUpdate base kwargs) k = some v := by
  induction kwargs generalizing base with
  | nil => simp [dictFind] at h
  | cons hd tl ih =>
      obtain ⟨k0, v0⟩ := hd
      simp only [List.map, List.nodup_cons] at hnd
      simp only [dictFind] at h
      by_cases hk : k0 = k
      · subst hk
        simp only [if_pos rfl] at h
        cases h
        have htl : dictFind tl k0 = Option.none :=
          dictFind_eq_none_of_not_mem tl k0 hnd.1
        rw [dictUpdate_cons, dictFind_dictUpdate_of_none _ _ _ htl,
          dictFind_dictSet]
        simp
      · simp only [if_neg hk] at h
        rw [dictUpdate_cons]
        exact ih _ hnd.2 h

theorem dictFind_fsUnlink (fs : FileSystem) (p : String) :
    dictFind (fsUnlink fs p) p = Option.none := by
  induction fs with
  | nil => rfl
  | cons hd tl ih =>
      obtain ⟨k0, v0⟩ := hd
      unfold fsUnlink at ih ⊢
      by_cases h : k0 = p
      · simpa [List.filter_cons, h] using ih
      · have : (k0 != p) = true := by simp [h]
        simp only [List.filter_cons, this, if_pos]
        simp only [dictFind, if_neg h]
        exact ih

/-- After `delete_token`, no token is loadable from that path. -/
theorem load_token_delete_token (p : Option String) (fs : FileSystem) :
    load_token p (delete_token p fs) = PyVal.none := by
  unfold load_token delete_token
  by_cases h : fsExists fs (resolveTokenPath p)
  · simp [h, dictFind_fsUnlink]
  · simp [h]
    unfold fsExists at h
    cases hf : dictFind fs (resolveTokenPath p) with
    | none => rfl
    | some v => rw [hf] at h; simp at h

theorem wrapList_ne_unexpected (xs : List PyVal) (b : PyVal) :
    wrapList xs ≠ Except.error (GetError.unexpectedResult b) := by
  induction xs with
  | nil => simp [wrapList]
  | cons x tl ih =>
      cases x <;> simp [wrapList]
      all_goals
        cases h : wrapList tl with
        | ok ds => simp
        | error e =>
            cases e <;> simp
            exact fun hh => ih (by rw [h, hh])

theorem wrapValues_ne_unexpected (v b : PyVal) :
    wrapValues v ≠ Except.error (GetError.unexpectedResult b) := by
  cases v <;> simp [wrapValues]
  exact wrapList_ne_unexpected _ _

theorem wrapList_dicts (xss : List (List (String × PyVal))) :
    wrapList (xss.map PyVal.dict) = Except.ok (xss.map MicroDict.mk) := by
  induction xss with
  | nil => rfl
  | cons hd tl ih => simp [wrapList, ih]

theorem is_valid_iff (c : ConnState) :
    c.is_valid = true ↔
      ((c.api_version = some "1.0" ∧ c.auth.isSome = true) ∨
       (c.api_version = some "2.0" ∧ c.oauth.isSome = true)) := by
  unfold ConnState.is_valid
  by_cases h1 : c.api_version = some "1.0"
  · simp [h1]
  · by_cases h2 : c.api_version = some "2.0" <;> simp [h1, h2]

theorem oauth2_api_version (c : ConnState) (fs : FileSystem)
    (cid cs : String) (st : Bool) (tp : Option String) (tok : PyVal) :
    ((c.oauth2 fs cid cs st tp tok).1).api_version = some "2.0" := by
  unfold ConnState.oauth2
  dsimp only
  split <;> split <;> rfl

theorem oauth2_oauth_isSome (c : ConnState) (fs : FileSystem)
    (cid cs : String) (st : Bool) (tp : Option String) (tok : PyVal) :
    ((c.oauth2 fs cid cs st tp tok).1).oauth.isSome = true := by
  unfold ConnState.oauth2
  dsimp only
  split <;> split <;> rfl

theorem runOps_cons (op : ConfigOp) (tl : List ConfigOp)
    (s : ConnState × FileSystem) :
    runOps (op :: tl) s = runOps tl (applyOp s op) := rfl

theorem applyOp_api_of_not_auth (s : ConnState × FileSystem) (op : ConfigOp)
    (h : op.isAuthOp = false) :
    (applyOp s op).1.api_version = s.1.api_version := by
  cases op with
  | loginOp u p => simp [ConfigOp.isAuthOp] at h
  | oauth2Op cid cs st tp tok => simp [ConfigOp.isAuthOp] at h
  | proxyOp url port u p => rfl

theorem runOps_api_of_not_auth (ops : List ConfigOp)
    (s : ConnState × FileSystem) (h : ∀ op ∈ ops, op.isAuthOp = false) :
    (runOps ops s).1.api_version = s.1.api_version := by
  induction ops generalizing s with
  | nil => rfl
  | cons op tl ih =>
      rw [runOps_cons, ih _ (fun o ho => h o (List.mem_cons_of_mem _ ho)),
        applyOp_api_of_not_auth _ _ (h op (List.mem_cons_self _ _))]

/-- On a valid connection, every branch of `get_response` starts with a GET
carrying `sentParams`. -/
theorem get_response_trace_head (c : ConnState) (fs : FileSystem)
    (url : String) (kwargs : List (String × PyVal)) (t : Transport)
    (hv : c.is_valid = true) :
    ((c.get_response fs url kwargs t).2.2.2).head? =
      some (Event.getCall url (sentParams c kwargs)) := by
  obtain ⟨fg, rf, sg⟩ := t
  unfold ConnState.get_response sentParams
  rw [hv]
  by_cases h1 : c.api_version = some "1.0" <;>
    cases fg <;> cases rf <;> cases sg <;> simp [h1]

/-! ## Claims -/

/-- C4 (corrected): `MicroDict` lookup tries the key with its first
character forced to lowercase; whenever that variant is absent or maps to
the value `None`, it tries the uppercase-first variant, returning the
found value or none.  In particular lookup by `"subject"` on
`{"Subject": "x"}` returns `"x"`, and symmetrically. -/
theorem C4_theorem (key : String) (d : List (String × PyVal)) :
    (∀ v, dictFind d (lowerFirst key) = some v → v ≠ PyVal.none →
        (MicroDict.mk d).getItem key = v) ∧
    (dictFind d (lowerFirst key) = Option.none ∨
        dictFind d (lowerFirst key) = some PyVal.none →
        (MicroDict.mk d).getItem key = dictGetD d (upperFirst key)) ∧
    (MicroDict.mk [("Subject", PyVal.str "x")]).getItem "subject"
        = PyVal.str "x" ∧
    (MicroDict.mk [("subject", PyVal.str "x")]).getItem "Subject"
        = PyVal.str "x" := by
  refine ⟨?_, ?_, rfl, rfl⟩
  · intro v hfind hne
    have hD : dictGetD d (lowerFirst key) = v := by
      unfold dictGetD; rw [hfind]
    unfold MicroDict.getItem
    dsimp only
    rw [hD]
    cases v with
    | none => exact absurd rfl hne
    | bool b => rfl
    | num n => rfl
    | str s => rfl
    | list xs => rfl
    | dict m => rfl
  · intro hfind
    have hD : dictGetD d (lowerFirst key) = PyVal.none := by
      cases hfind with
      | inl h => unfold dictGetD; rw [h]
      | inr h => unfold dictGetD; rw [h]
    unfold MicroDict.getItem
    dsimp only
    rw [hD]
    rfl

/-- C4: the claim as stated fails — when the lowercase-first variant of the
key is present but maps to `None`, lookup does not return that found value;
it falls through to the uppercase-first variant. -/
theorem C4_counterexample :
    dictFind [("subject", PyVal.none), ("Subject", PyVal.str "x")]
        (lowerFirst "subject") = some PyVal.none ∧
    (MicroDict.mk [("subject", PyVal.none), ("Subject", PyVal.str "x")]).getItem
        "subject" = PyVal.str "x" ∧
    PyVal.str "x" ≠ PyVal.none :=
  ⟨rfl, rfl, fun h => PyVal.noConfusion h⟩

/-- C4 witness: the amended theorem applied at concrete inputs. -/
theorem C4_witness :
    (MicroDict.mk [("a", PyVal.num 1)]).getItem "a" = PyVal.num 1 ∧
    (MicroDict.mk [("a", PyVal.none), ("A", PyVal.num 7)]).getItem "a"
      = dictGetD [("a", PyVal.none), ("A", PyVal.num 7)] (upperFirst "a") := by
  have h := C4_theorem "a" [("a", PyVal.num 1)]
  have h2 := C4_theorem "a" [("a", PyVal.none), ("A", PyVal.num 7)]
  exact ⟨h.1 (PyVal.num 1) rfl (fun hh => PyVal.noConfusion hh),
    h2.2.1 (Or.inr rfl)⟩

/-- C10 (confirmed): `MicroDict` indexing is total — modelled as the total
function `MicroDict.getItem`, which raises nothing: it returns `None` when
neither the lowercase-first nor the uppercase-first variant of the key is
present, and when the lowercase-first variant maps to `None` it returns the
uppercase-first variant's value (the `.get` default) instead. -/
theorem C10_theorem (key : String) (d : List (String × PyVal)) :
    (dictFind d (lowerFirst key) = Option.none →
     dictFind d (upperFirst key) = Option.none →
        (MicroDict.mk d).getItem key = PyVal.none) ∧
    (dictFind d (lowerFirst key) = some PyVal.none →
        (MicroDict.mk d).getItem key = dictGetD d (upperFirst key)) := by
  constructor
  · intro h1 h2
    have hD1 : dictGetD d (lowerFirst key) = PyVal.none := by
      unfold dictGetD; rw [h1]
    have hD2 : dictGetD d (upperFirst key) = PyVal.none := by
      unfold dictGetD; rw [h2]
    unfold MicroDict.getItem
    dsimp only
    rw [hD1, hD2]
    rfl
  · intro h1
    have hD1 : dictGetD d (lowerFirst key) = PyVal.none := by
      unfold dictGetD; rw [h1]
    unfold MicroDict.getItem
    dsimp only
    rw [hD1]
    rfl

/-- C10 witness: lookup on an empty mapping with the empty-string key, and
the `None`-valued fallthrough, at concrete inputs. -/
theorem C10_witness :
    (MicroDict.mk []).getItem "" = PyVal.none ∧
    (MicroDict.mk [("subject", PyVal.none), ("Subject", PyVal.str "q")]).getItem
        "subject"
      = dictGetD [("subject", PyVal.none), ("Subject", PyVal.str "q")]
          (upperFirst "subject") := by
  have h1 := C10_theorem "" []
  have h2 := C10_theorem "subject"
    [("subject", PyVal.none), ("Subject", PyVal.str "q")]
  exact ⟨h1.1 rfl rfl, h2.2 rfl⟩

/-- C8 (confirmed): `save_token` then `load_token` on the same path returns
the saved token; `delete_token` then `load_token` returns none; and
`load_token` returns none whenever no file exists at the (resolved) path. -/
theorem C8_theorem (T : PyVal) (p : Option String) (fs : FileSystem) :
    load_token p (save_token T p fs) = T ∧
    load_token p (delete_token p fs) = PyVal.none ∧
    (dictFind fs (resolveTokenPath p) = Option.none →
        load_token p fs = PyVal.none) := by
  refine ⟨?_, load_token_delete_token p fs, ?_⟩
  · unfold load_token save_token fsWrite
    rw [dictFind_dictSet]
    simp
  · intro h
    unfold load_token
    rw [h]

/-- C8 witness: round-trip and deletion at a concrete token and path. -/
theorem C8_witness :
    load_token (some "/tmp/tok")
        (save_token (PyVal.dict [("access_token", PyVal.str "t")])
          (some "/tmp/tok") ([] : FileSystem))
      = PyVal.dict [("access_token", PyVal.str "t")] ∧
    load_token (some "/tmp/tok") (delete_token (some "/tmp/tok")
        ([] : FileSystem)) = PyVal.none ∧
    load_token (some "/tmp/tok") ([] : FileSystem) = PyVal.none := by
  have h := C8_theorem (PyVal.dict [("access_token", PyVal.str "t")])
    (some "/tmp/tok") ([] : FileSystem)
  exact ⟨h.1, h.2.1, h.2.2 rfl⟩

/-- C7 (confirmed): `is_valid()` is true iff (`api_version == "1.0"` and
`auth` set) or (`api_version == "2.0"` and `oauth` set); it is false on a
freshly constructed connection and true right after `login()` or after an
`oauth2()` call that obtains a session. -/
theorem C7_theorem (c c1 c2 : ConnState) (fs : FileSystem)
    (u p cid cs : String) (st : Bool) (tp : Option String) (tok : PyVal) :
    (c.is_valid = true ↔
      ((c.api_version = some "1.0" ∧ c.auth.isSome = true) ∨
       (c.api_version = some "2.0" ∧ c.oauth.isSome = true))) ∧
    ConnState.init.is_valid = false ∧
    (c1.login u p).is_valid = true ∧
    ((c2.oauth2 fs cid cs st tp tok).1).is_valid = true := by
  refine ⟨is_valid_iff c, rfl, rfl, ?_⟩
  rw [is_valid_iff]
  exact Or.inr ⟨oauth2_api_version c2 fs cid cs st tp tok,
    oauth2_oauth_isSome c2 fs cid cs st tp tok⟩

/-- C9 (confirmed): `oauth2` with `store_token=False` deletes any token
file at the path, always takes the interactive branch, and nevertheless
persists the freshly fetched token to `token_path` via `save_token`. -/
theorem C9_theorem (c : ConnState) (fs : FileSystem) (cid cs : String)
    (tp : Option String) (fetched : PyVal) :
    c.oauth2 fs cid cs false tp fetched =
      ({ c with api_version := some "2.0", client_id := some cid,
                client_secret := some cs,
                oauth := some { client_id := cid,
                                redirect_uri := some oauth2RedirectUri,
                                scope := some oauth2Scopes,
                                token := some fetched } },
       save_token fetched tp (delete_token tp fs),
       [Event.tokenDeleted (resolveTokenPath tp),
        Event.authPrompt _oauth2_authorize_url,
        Event.tokenSaved (resolveTokenPath tp) fetched]) ∧
    dictFind (save_token fetched tp (delete_token tp fs))
        (resolveTokenPath tp) = some fetched := by
  constructor
  · unfold ConnState.oauth2
    simp only [Bool.not_false, reduceIte]
    rw [load_token_delete_token]
    rfl
  · unfold save_token fsWrite
    rw [dictFind_dictSet]
    simp

/-- C1 (corrected): after any sequence of `login`/`oauth2`/`proxy` calls on
the singleton, whenever `is_valid()` is true the field selected by
`api_version` is set (`auth` on `"1.0"`, `oauth` on `"2.0"`), but not
necessarily exactly one of the two: neither `login` nor `oauth2` clears the
other's field, so both can be set at once.  `is_valid()` is false as long
as neither `login` nor `oauth2` has run. -/
theorem C1_theorem (ops : List ConfigOp) (fs : FileSystem) :
    (ConnState.is_valid (runOps ops (ConnState.init, fs)).1 = true →
      (((runOps ops (ConnState.init, fs)).1.api_version = some "1.0" ∧
          (runOps ops (ConnState.init, fs)).1.auth.isSome = true) ∨
       ((runOps ops (ConnState.init, fs)).1.api_version = some "2.0" ∧
          (runOps ops (ConnState.init, fs)).1.oauth.isSome = true))) ∧
    ((∀ op ∈ ops, op.isAuthOp = false) →
      ConnState.is_valid (runOps ops (ConnState.init, fs)).1 = false) := by
  constructor
  · intro hval
    exact (is_valid_iff _).mp hval
  · intro h
    unfold ConnState.is_valid
    rw [runOps_api_of_not_auth ops _ h]
    rfl

/-- C1: the claim as stated fails — running `login` then `oauth2` on the
singleton leaves a state where `is_valid()` is true yet both `auth` and
`oauth` are set, because `oauth2` never unsets `auth`. -/
theorem C1_counterexample :
    ConnState.is_valid (runOps [ConfigOp.loginOp "u" "p",
        ConfigOp.oauth2Op "cid" "sec" true Option.none (PyVal.str "tok")]
        (ConnState.init, ([] : FileSystem))).1 = true ∧
    (runOps [ConfigOp.loginOp "u" "p",
        ConfigOp.oauth2Op "cid" "sec" true Option.none (PyVal.str "tok")]
        (ConnState.init, ([] : FileSystem))).1.auth.isSome = true ∧
    (runOps [ConfigOp.loginOp "u" "p",
        ConfigOp.oauth2Op "cid" "sec" true Option.none (PyVal.str "tok")]
        (ConnState.init, ([] : FileSystem))).1.oauth.isSome = true :=
  ⟨rfl, rfl, rfl⟩

/-- C1 witness: the amended theorem applied at concrete call sequences. -/
theorem C1_witness :
    (((runOps [ConfigOp.loginOp "u" "p"]
          (ConnState.init, ([] : FileSystem))).1.api_version = some "1.0" ∧
      (runOps [ConfigOp.loginOp "u" "p"]
          (ConnState.init, ([] : FileSystem))).1.auth.isSome = true) ∨
     ((runOps [ConfigOp.loginOp "u" "p"]
          (ConnState.init, ([] : FileSystem))).1.api_version = some "2.0" ∧
      (runOps [ConfigOp.loginOp "u" "p"]
          (ConnState.init, ([] : FileSystem))).1.oauth.isSome = true)) ∧
    ConnState.is_valid (runOps [ConfigOp.proxyOp "proxy.local" 8080 "px" "pw"]
        (ConnState.init, ([] : FileSystem))).1 = false :=
  ⟨(C1_theorem [ConfigOp.loginOp "u" "p"] []).1 rfl,
   (C1_theorem [ConfigOp.proxyOp "proxy.local" 8080 "px" "pw"] []).2
     (by intro op hop
         rw [List.mem_singleton] at hop
         subst hop
         rfl)⟩

/-- C6 (confirmed): `get_response` on an invalid connection raises the
configuration `RuntimeError` with the instructing message, before any
network request (empty event trace), leaving the connection state and the
file system unchanged. -/
theorem C6_theorem (c : ConnState) (fs : FileSystem) (url : String)
    (kwargs : List (String × PyVal)) (t : Transport)
    (h : c.is_valid = false) :
    c.get_response fs url kwargs t =
      (Except.error (GetError.notConfigured notConfiguredMsg), c, fs, []) := by
  unfold ConnState.get_response
  rw [h]
  rfl

/-- C6 witness: the theorem applied to the freshly constructed state. -/
theorem C6_witness :
    ConnState.init.get_response [] "https://graph.microsoft.com/v1.0/me/messages"
        [] ⟨GetOutcome.ok [], RefreshOutcome.ok PyVal.none, GetOutcome.ok []⟩ =
      (Except.error (GetError.notConfigured notConfiguredMsg),
        ConnState.init, [], []) :=
  C6_theorem ConnState.init [] "https://graph.microsoft.com/v1.0/me/messages"
    [] ⟨GetOutcome.ok [], RefreshOutcome.ok PyVal.none, GetOutcome.ok []⟩ rfl

/-- C5 (confirmed): after a successful GET whose body decodes to a JSON
object, `get_response` raises the generic `RuntimeError` (whose message
embeds the raw body) exactly when the object has no `"value"` key;
otherwise it returns the elements of the `"value"` array wrapped in
`MicroDict`s, in order. -/
theorem C5_theorem (c : ConnState) (fs : FileSystem) (url : String)
    (kwargs : List (String × PyVal)) (t : Transport)
    (m : List (String × PyVal))
    (hv : c.is_valid = true) (hg : t.firstGet = GetOutcome.ok m) :
    (c.get_response fs url kwargs t).1 = processBody m ∧
    (dictFind m "value" = Option.none →
        processBody m
          = Except.error (GetError.unexpectedResult (PyVal.dict m))) ∧
    (∀ v, dictFind m "value" = some v →
        ∀ b, processBody m ≠ Except.error (GetError.unexpectedResult b)) ∧
    (∀ xss : List (List (String × PyVal)),
        dictFind m "value" = some (PyVal.list (xss.map PyVal.dict)) →
        processBody m = Except.ok (xss.map MicroDict.mk)) := by
  refine ⟨?_, ?_, ?_, ?_⟩
  · unfold ConnState.get_response
    rw [hv]
    by_cases h1 : c.api_version = some "1.0" <;> simp [h1, hg]
  · intro h
    unfold processBody
    rw [h]
  · intro v hvs b
    unfold processBody
    rw [hvs]
    exact wrapValues_ne_unexpected v b
  · intro xss hvs
    unfold processBody
    rw [hvs]
    exact wrapList_dicts xss

/-- C5 witness: a stubbed transport returning
`{"value": [{"a": 1}, {"b": 2}]}` yields the two wrapped objects in order. -/
theorem C5_witness :
    ((ConnState.login ConnState.init "u" "p").get_response []
        "https://u" []
        ⟨GetOutcome.ok [("value", PyVal.list [PyVal.dict [("a", PyVal.num 1)],
            PyVal.dict [("b", PyVal.num 2)]])],
         RefreshOutcome.ok PyVal.none, GetOutcome.ok []⟩).1
      = Except.ok [MicroDict.mk [("a", PyVal.num 1)],
          MicroDict.mk [("b", PyVal.num 2)]] := by
  have h := C5_theorem (ConnState.login ConnState.init "u" "p") []
    "https://u" []
    ⟨GetOutcome.ok [("value", PyVal.list [PyVal.dict [("a", PyVal.num 1)],
        PyVal.dict [("b", PyVal.num 2)]])],
     RefreshOutcome.ok PyVal.none, GetOutcome.ok []⟩
    [("value", PyVal.list [PyVal.dict [("a", PyVal.num 1)],
        PyVal.dict [("b", PyVal.num 2)]])] rfl rfl
  rw [h.1]
  exact h.2.2.2 [[("a", PyVal.num 1)], [("b", PyVal.num 2)]] rfl

/-- C3 (confirmed): in the OAuth2 path, a `TokenExpiredError` on the first
GET triggers exactly one refresh against the fixed token endpoint with the
stored `client_id`/`client_secret`; the refreshed token is saved to the
default token path (the custom `token_path` from setup is not part of the
connection state, so it is ignored); the GET is retried exactly once; an
error during the refresh, or a second expiry or transport error on the
retry, propagates. -/
theorem C3_theorem (c : ConnState) (fs : FileSystem) (url : String)
    (kwargs : List (String × PyVal)) (t : Transport)
    (hv : c.is_valid = true) (h2 : c.api_version = some "2.0")
    (hfg : t.firstGet = GetOutcome.tokenExpired) :
    (∀ e, t.refresh = RefreshOutcome.err e →
        c.get_response fs url kwargs t =
          (Except.error (GetError.refreshFailed e), c, fs,
            [Event.getCall url (buildConParams c.proxy_dict kwargs),
             Event.refreshCall _oauth2_token_url c.client_id c.client_secret])) ∧
    (∀ tok, t.refresh = RefreshOutcome.ok tok →
        ((c.get_response fs url kwargs t).2.2.1
            = fsWrite fs default_token_path tok ∧
         save_token tok Option.none fs = fsWrite fs default_token_path tok ∧
         (c.get_response fs url kwargs t).2.2.2 =
           [Event.getCall url (buildConParams c.proxy_dict kwargs),
            Event.refreshCall _oauth2_token_url c.client_id c.client_secret,
            Event.tokenSaved default_token_path tok,
            Event.getCall url (buildConParams c.proxy_dict kwargs)] ∧
         (∀ body, t.secondGet = GetOutcome.ok body →
            (c.get_response fs url kwargs t).1 = processBody body) ∧
         (t.secondGet = GetOutcome.tokenExpired →
            (c.get_response fs url kwargs t).1
              = Except.error GetError.tokenExpired) ∧
         (∀ e, t.secondGet = GetOutcome.err e →
            (c.get_response fs url kwargs t).1
              = Except.error (GetError.transport e)))) := by
  have hne : ¬ c.api_version = some "1.0" := by rw [h2]; simp
  constructor
  · intro e hr
    unfold ConnState.get_response
    rw [hv]
    simp [hne, hfg, hr]
  · intro tok hr
    refine ⟨?_, rfl, ?_, ?_, ?_, ?_⟩
    · unfold ConnState.get_response
      rw [hv]
      obtain ⟨fg, rf, sg⟩ := t
      cases sg <;> simp_all [hne, save_token, resolveTokenPath]
    · unfold ConnState.get_response
      rw [hv]
      obtain ⟨fg, rf, sg⟩ := t
      cases sg <;> simp_all [hne]
    · intro body hsg
      unfold ConnState.get_response
      rw [hv]
      simp [hne, hfg, hr, hsg]
    · intro hsg
      unfold ConnState.get_response
      rw [hv]
      simp [hne, hfg, hr, hsg]
    · intro e hsg
      unfold ConnState.get_response
      rw [hv]
      simp [hne, hfg, hr, hsg]

/-- C3 witness: a connection set up by `oauth2` with a custom token path;
on expiry the refreshed token is nevertheless written to the default path,
and the retried GET's body is processed normally. -/
theorem C3_witness :
    ((ConnState.init.oauth2 [] "cid" "sec" true (some "/custom/tok")
        (PyVal.str "T")).1.get_response
      (ConnState.init.oauth2 [] "cid" "sec" true (some "/custom/tok")
        (PyVal.str "T")).2.1
      "https://u" []
      ⟨GetOutcome.tokenExpired, RefreshOutcome.ok (PyVal.str "T2"),
       GetOutcome.ok [("value", PyVal.list [])]⟩).2.2.1
      = fsWrite (ConnState.init.oauth2 [] "cid" "sec" true (some "/custom/tok")
          (PyVal.str "T")).2.1 default_token_path (PyVal.str "T2") ∧
    ((ConnState.init.oauth2 [] "cid" "sec" true (some "/custom/tok")
        (PyVal.str "T")).1.get_response
      (ConnState.init.oauth2 [] "cid" "sec" true (some "/custom/tok")
        (PyVal.str "T")).2.1
      "https://u" []
      ⟨GetOutcome.tokenExpired, RefreshOutcome.ok (PyVal.str "T2"),
       GetOutcome.ok [("value", PyVal.list [])]⟩).1
      = processBody [("value", PyVal.list [])] := by
  have h := C3_theorem
    (ConnState.init.oauth2 [] "cid" "sec" true (some "/custom/tok")
      (PyVal.str "T")).1
    (ConnState.init.oauth2 [] "cid" "sec" true (some "/custom/tok")
      (PyVal.str "T")).2.1
    "https://u" []
    ⟨GetOutcome.tokenExpired, RefreshOutcome.ok (PyVal.str "T2"),
     GetOutcome.ok [("value", PyVal.list [])]⟩ rfl rfl rfl
  have hok := h.2 (PyVal.str "T2") rfl
  exact ⟨hok.1, hok.2.2.2.1 [("value", PyVal.list [])] rfl⟩

/-- C2 (corrected): the options handed to the underlying GET are formed by
taking `proxy_dict` (when set) as the `'proxies'` entry and overlaying the
caller's keyword options, the caller winning on key conflicts — except
that in the `"1.0"` path the `'auth'` entry is subsequently forced to the
stored basic-auth credentials, overriding any caller-supplied `'auth'`. -/
theorem C2_theorem (c : ConnState) (fs : FileSystem) (url : String)
    (kwargs : List (String × PyVal)) (t : Transport)
    (hv : c.is_valid = true) (hnd : (kwargs.map Prod.fst).Nodup) :
    ((c.get_response fs url kwargs t).2.2.2).head? =
      some (Event.getCall url (sentParams c kwargs)) ∧
    (∀ k v, dictFind kwargs k = some v →
        ¬(c.api_version = some "1.0" ∧ k = "auth") →
        dictFind (sentParams c kwargs) k = some v) ∧
    (c.api_version = some "1.0" →
        dictFind (sentParams c kwargs) "auth" = some (authToPy c.auth)) ∧
    (∀ pd, c.proxy_dict = some pd → dictFind kwargs "proxies" = Option.none →
        dictFind (sentParams c kwargs) "proxies"
          = some (PyVal.dict (pd.map (fun e => (e.1, PyVal.str e.2))))) ∧
    (∀ k, dictFind kwargs k = Option.none → k ≠ "proxies" →
        ¬(c.api_version = some "1.0" ∧ k = "auth") →
        dictFind (sentParams c kwargs) k = Option.none) := by
  refine ⟨get_response_trace_head c fs url kwargs t hv, ?_, ?_, ?_, ?_⟩
  · intro k v hk hexc
    unfold sentParams
    by_cases h1 : c.api_version = some "1.0"
    · have hka : ¬ k = "auth" := fun hh => hexc ⟨h1, hh⟩
      rw [if_pos h1, dictFind_dictSet,
        if_neg (fun hh => hka hh.symm)]
      exact dictFind_dictUpdate_of_some _ _ _ _ hnd hk
    · rw [if_neg h1]
      exact dictFind_dictUpdate_of_some _ _ _ _ hnd hk
  · intro h1
    unfold sentParams
    rw [if_pos h1, dictFind_dictSet, if_pos rfl]
  · intro pd hpd hnone
    unfold sentParams buildConParams
    rw [hpd]
    by_cases h1 : c.api_version = some "1.0"
    · rw [if_pos h1, dictFind_dictSet,
        if_neg (by decide : ¬ ("auth" : String) = "proxies"),
        dictFind_dictUpdate_of_none _ _ _ hnone]
      rfl
    · rw [if_neg h1, dictFind_dictUpdate_of_none _ _ _ hnone]
      rfl
  · intro k hk hkp hexc
    unfold sentParams buildConParams
    by_cases h1 : c.api_version = some "1.0"
    · have hka : ¬ k = "auth" := fun hh => hexc ⟨h1, hh⟩
      rw [if_pos h1, dictFind_dictSet, if_neg (fun hh => hka hh.symm),
        dictFind_dictUpdate_of_none _ _ _ hk]
      cases hp : c.proxy_dict with
      | none => rfl
      | some pd =>
          simp only [dictFind]
          rw [if_neg (fun hh => hkp hh.symm)]
    · rw [if_neg h1, dictFind_dictUpdate_of_none _ _ _ hk]
      cases hp : c.proxy_dict with
      | none => rfl
      | some pd =>
          simp only [dictFind]
          rw [if_neg (fun hh => hkp hh.symm)]

/-- C2: the claim as stated fails in the `"1.0"` path — the caller's
`auth` keyword option does not win: the GET receives the connection's
stored basic-auth credentials instead. -/
theorem C2_counterexample :
    ((ConnState.login ConnState.init "user" "pw").get_response []
        "https://u" [("auth", PyVal.str "callerAuth")]
        ⟨GetOutcome.ok [], RefreshOutcome.ok PyVal.none,
         GetOutcome.ok []⟩).2.2.2
      = [Event.getCall "https://u"
          [("auth", PyVal.list [PyVal.str "user", PyVal.str "pw"])]] ∧
    PyVal.list [PyVal.str "user", PyVal.str "pw"] ≠ PyVal.str "callerAuth" :=
  ⟨rfl, fun h => PyVal.noConfusion h⟩

/-- C2 witness: the amended theorem applied to a basic-auth connection
with a proxy and a `timeout` keyword option. -/
theorem C2_witness :
    (((ConnState.init.login "u" "p").proxy "proxy.local" 8080 "px"
        "pw").get_response [] "https://u" [("timeout", PyVal.num 5)]
        ⟨GetOutcome.ok [], RefreshOutcome.ok PyVal.none,
         GetOutcome.ok []⟩).2.2.2.head?
      = some (Event.getCall "https://u"
          (sentParams ((ConnState.init.login "u" "p").proxy "proxy.local"
            8080 "px" "pw") [("timeout", PyVal.num 5)])) ∧
    dictFind (sentParams ((ConnState.init.login "u" "p").proxy "proxy.local"
        8080 "px" "pw") [("timeout", PyVal.num 5)]) "timeout"
      = some (PyVal.num 5) ∧
    dictFind (sentParams ((ConnState.init.login "u" "p").proxy "proxy.local"
        8080 "px" "pw") [("timeout", PyVal.num 5)]) "auth"
      = some (authToPy ((ConnState.init.login "u" "p").proxy "proxy.local"
          8080 "px" "pw").auth) := by
  have h := C2_theorem
    ((ConnState.init.login "u" "p").proxy "proxy.local" 8080 "px" "pw")
    [] "https://u" [("timeout", PyVal.num 5)]
    ⟨GetOutcome.ok [], RefreshOutcome.ok PyVal.none, GetOutcome.ok []⟩
    rfl (by simp)
  exact ⟨h.1, h.2.1 "timeout" (PyVal.num 5) rfl
      (fun hh => absurd hh.2 (by decide)),
    h.2.2.1 rfl⟩

end O365
